import Mathlib

set_option maxRecDepth 8192

/-!
Shallow embedding of the RemoteShell repository (client.py, server.py,
network.py, security.py, executor.py) and proofs about its secure session
protocol.  Bytes are modelled as `List Nat` with entries below 256; the
external cryptographic primitives from pycryptodome (AES-CBC, RSA-OAEP,
PKCS#1 v1.5 signatures, SHA-384) are modelled as concrete executable
functions satisfying the library contracts the repository relies on
(fixed output sizes, decrypt inverting encrypt, verification by
recomputation); all repository-level logic is translated line by line
from the source.
-/

/-- A list of naturals is byte-valid when every entry is below 256. -/
def bytesOK (l : List Nat) : Prop := ∀ b ∈ l, b < 256

instance : DecidablePred bytesOK := fun l => List.decidableBAll _ l

/-- Big-endian fixed-width encoding of a natural number, as produced by
struct.pack and by the modelled fixed-size RSA outputs. -/
def natToBytes : Nat → Nat → List Nat
  | 0, _ => []
  | w + 1, n => natToBytes w (n / 256) ++ [n % 256]

/-- Big-endian decoding of a byte list, as done by struct.unpack. -/
def bytesToNat (l : List Nat) : Nat := l.foldl (fun a b => a * 256 + b) 0

/-- AES.block_size from pycryptodome (16 bytes). -/
def AES_block_size : Nat := 16

/-- Error values of src/security.py, plus the Python-level IndexError that
unpad raises on empty input. -/
inductive SecurityError
  | missingRemoteKey
  | invalidPadding (padding : List Nat)
  | indexError
deriving DecidableEq

/-- pad from src/security.py lines 40-43: PKCS-5 padding, appending
`need` copies of the byte `need` where `need = size - len(data) % size`. -/
def pad (data : List Nat) (size : Nat := AES_block_size) : List Nat :=
  let need := size - data.length % size
  data ++ List.replicate need need

/-- unpad from src/security.py lines 45-51.  Python slicing `data[:-plen]`
and `data[-plen:]` is reproduced exactly, including the `plen = 0` case in
which `data[:-0]` is empty and `data[-0:]` is the whole string; an empty
input raises IndexError at `data[-1]`. -/
def unpad (data : List Nat) : Except SecurityError (List Nat) :=
  match data.getLast? with
  | none => .error .indexError
  | some plen =>
    let body := if plen = 0 then [] else data.take (data.length - plen)
    let padding := if plen = 0 then data else data.drop (data.length - plen)
    if padding = List.replicate plen plen then .ok body
    else .error (.invalidPadding padding)

/-- Configured RSA key size: `config.get('security.rsaKeySize', 1024)`
from src/security.py line 28, with the configuration value made explicit. -/
def rsaKeySizeCfg (cfg : Option Nat) : Nat := cfg.getD 1024

/-- RSA_CIPHER_SIZE = RSA_SIGNATURE_SIZE = RSA_KEY_SIZE // 8
(src/security.py line 29), as a function of the configuration. -/
def rsaSignatureSizeCfg (cfg : Option Nat) : Nat := rsaKeySizeCfg cfg / 8

/-- RSA_KEY_SIZE under the default configuration (no config.json override). -/
def RSA_KEY_SIZE : Nat := rsaKeySizeCfg none

/-- RSA_SIGNATURE_SIZE under the default configuration: 128 bytes. -/
def RSA_SIGNATURE_SIZE : Nat := rsaSignatureSizeCfg none

/-- RSA_CIPHER_SIZE equals RSA_SIGNATURE_SIZE in the source (line 29). -/
def RSA_CIPHER_SIZE : Nat := RSA_SIGNATURE_SIZE

/-- Modulus size hardcoded at key generation: `RSA.generate(1024)` in
SecurityManager.__init__ (src/security.py line 85) ignores the configured
key size and always generates a 1024-bit modulus. -/
def GENERATED_KEY_BITS : Nat := 1024

/-- Signature length actually produced by the generated keypair: PKCS#1
v1.5 signatures have the length of the modulus in bytes, hence always
1024/8 = 128 bytes regardless of the configured rsaKeySize. -/
def GENERATED_SIGNATURE_SIZE : Nat := GENERATED_KEY_BITS / 8

/-- AES key size from config ('security.aesKeySize', default 16). -/
def AES_KEY_SIZE : Nat := 16

/-- Byte-wise shift used by the modelled symmetric and asymmetric ciphers. -/
def bshift (s b : Nat) : Nat := (b + s) % 256

/-- Inverse byte-wise shift. -/
def bunshift (s b : Nat) : Nat := (b + (256 - s % 256)) % 256

/-- Keystream shift derived from an AES key and IV in the modelled cipher. -/
def keyStream (key iv : List Nat) : Nat := bytesToNat key + bytesToNat iv

/-- Model of the external pycryptodome primitive
`AES.new(key, AES.MODE_CBC, iv).encrypt`: a length-preserving keyed
byte-wise transformation that `aesDecrypt` inverts on byte-valid input. -/
def aesEncrypt (key iv data : List Nat) : List Nat :=
  data.map (bshift (keyStream key iv))

/-- Model of `AES.new(key, AES.MODE_CBC, iv).decrypt`, inverse of
`aesEncrypt`. -/
def aesDecrypt (key iv data : List Nat) : List Nat :=
  data.map (bunshift (keyStream key iv))

/-- Model of the external SHA-384 digest (`hashof` in src/security.py):
a deterministic function of the message, injective on the inputs handled
here; only determinism and fixed-size signing of it matter to the code. -/
def hashof (data : List Nat) : Nat := data.foldl (fun h b => h * 256 + b + 1) 1

/-- Model of the external PKCS#1 v1.5 signature primitive: deterministic
padding of the digest under the signing key, with output of exactly the
modulus size in bytes (128 for the generated 1024-bit keys). -/
def rsaSign (key : Nat) (data : List Nat) : List Nat :=
  natToBytes GENERATED_SIGNATURE_SIZE (hashof data + key)

/-- Model of the external RSA-OAEP encryption primitive
(`PKCS1_OAEP.new(key).encrypt`): a keyed invertible encoding of a short
message into exactly RSA_CIPHER_SIZE bytes. -/
def rsaEncrypt (key : Nat) (m : List Nat) : List Nat :=
  ((m.length :: m) ++ List.replicate (RSA_CIPHER_SIZE - 1 - m.length) 0).map
    (bshift key)

/-- Model of `PKCS1_OAEP.new(key).decrypt`, inverse of `rsaEncrypt` under
the matching key. -/
def rsaDecrypt (key : Nat) (c : List Nat) : List Nat :=
  match c.map (bunshift key) with
  | [] => []
  | len :: rest => rest.take len

/-- SecurityManager state (src/security.py lines 82-87).  The keypair is
modelled by a single seed: `privateKey` stands for the generated RSA key
pair, whose public half is what `export` serialises; `remoteKey` starts
as None and is set by `load`. -/
structure SecurityManager where
  privateKey : Nat
  remoteKey : Option Nat
deriving DecidableEq

/-- Little-endian base-256 digit expansion with explicit fuel (so that it
computes by structural recursion). -/
def encodeKeyAux : Nat → Nat → List Nat
  | 0, _ => []
  | fuel + 1, n => if n = 0 then [] else n % 256 :: encodeKeyAux fuel (n / 256)

/-- Serialisation of a key seed, the model of DER encoding of the public
key. -/
def encodeKey (n : Nat) : List Nat := encodeKeyAux (n + 1) n

/-- Inverse of encodeKey: base-256 value of a digit list. -/
def decodeKey : List Nat → Nat
  | [] => 0
  | d :: t => d + 256 * decodeKey t

/-- SecurityManager.export (lines 111-113): DER serialisation of the
public key, modelled as the digit expansion of the key seed. -/
def SecurityManager.export (m : SecurityManager) : List Nat :=
  encodeKey m.privateKey

/-- SecurityManager.load (lines 105-107): parse a serialised key and store
it as the remote public key. -/
def SecurityManager.load (m : SecurityManager) (remote_key : List Nat) :
    SecurityManager :=
  { m with remoteKey := some (decodeKey remote_key) }

/-- SecurityManager.sign (lines 92-95): sign the digest with the local
private key. -/
def SecurityManager.sign (m : SecurityManager) (data : List Nat) : List Nat :=
  rsaSign m.privateKey data

/-- SecurityManager.verify (lines 96-104): raises MissingRemoteKey when no
remote key is loaded; otherwise recomputes the expected signature and
compares, returning False (pycryptodome's ValueError is caught) on any
mismatch, including wrong-length signatures. -/
def SecurityManager.verify (m : SecurityManager) (data signature : List Nat) :
    Except SecurityError Bool :=
  match m.remoteKey with
  | none => .error .missingRemoteKey
  | some rk => .ok (decide (signature = rsaSign rk data))

/-- Module-level encrypt (src/security.py lines 53-57) with the entropy of
`random_key_iv` made explicit: returns the ephemeral key and
IV-prefixed ciphertext of the padded payload. -/
def secEncrypt (key iv data : List Nat) : List Nat × List Nat :=
  (key, iv ++ aesEncrypt key iv (pad data AES_block_size))

/-- Module-level decrypt (lines 59-63): split off the IV, decrypt,
unpad. -/
def secDecrypt (key data : List Nat) : Except SecurityError (List Nat) :=
  let iv := data.take AES_block_size
  let rest := data.drop AES_block_size
  unpad (aesDecrypt key iv rest)

/-- SecurityManager.encrypt (lines 117-123) with explicit entropy: checks
the remote key, encrypts the payload under the ephemeral key, encrypts
the ephemeral key under the remote public key, concatenates. -/
def SecurityManager.encrypt (m : SecurityManager) (key iv data : List Nat) :
    Except SecurityError (List Nat) :=
  match m.remoteKey with
  | none => .error .missingRemoteKey
  | some rk =>
    let p := secEncrypt key iv data
    .ok (rsaEncrypt rk p.1 ++ p.2)

/-- SecurityManager.decrypt (lines 124-129): split the fixed-size
asymmetric ciphertext, recover the ephemeral key with the local private
key, decrypt the rest. -/
def SecurityManager.decrypt (m : SecurityManager) (data : List Nat) :
    Except SecurityError (List Nat) :=
  let ephemeral := data.take RSA_CIPHER_SIZE
  let rest := data.drop RSA_CIPHER_SIZE
  secDecrypt (rsaDecrypt m.privateKey ephemeral) rest

/-- Python strings are modelled as lists of characters; the Lean String
type's own operations are avoided because the repository needs strip,
lower, startswith and split with Python semantics. -/
abbrev PyStr := List Char

/-- Coerces a Lean string literal to the PyStr model. -/
def pystr (s : String) : PyStr := s.data

/-- Model of str.encode(): UTF-8 encoding, which on the code points the
protocol exchanges (ASCII) is the identity on code points. -/
def strBytes (s : PyStr) : List Nat := s.map Char.toNat

/-- Model of bytes.decode(), inverse of strBytes on its range. -/
def bytesStr (bs : List Nat) : PyStr := bs.map Char.ofNat

/-- Python str.lower() on the ASCII commands used here. -/
def pyLower (s : PyStr) : PyStr := s.map Char.toLower

/-- Python str.strip() from the left. -/
def pyStripLeft : PyStr → PyStr
  | [] => []
  | c :: t => if c.isWhitespace then pyStripLeft t else c :: t

/-- Python str.strip(): whitespace removed from both ends. -/
def pyStrip (s : PyStr) : PyStr :=
  (pyStripLeft (pyStripLeft s.reverse).reverse)

/-- Python str.startswith. -/
def pyStartsWith (p s : PyStr) : Bool := List.isPrefixOf p s

/-- Python s.split(sep, 1) specialised to a one-character separator:
returns the part before the first occurrence and, when found, the
remainder after it. -/
def pySplit1 (sep : Char) : PyStr → PyStr × Option PyStr
  | [] => ([], none)
  | c :: t =>
    if c = sep then ([], some t)
    else
      let p := pySplit1 sep t
      (c :: p.1, p.2)

/-- Data payload of an ExecutionResult (src/executor.py): None, the
RequireInput marker, or an otherwise opaque serialisable value. -/
inductive RData
  | noneD
  | requireInput
  | val (s : PyStr)
deriving DecidableEq

/-- Kind tag of a packed remote exception (pack_error wraps the exception
into a RemoteException carrying its traceback text; only the kind matters
to the protocol). -/
inductive ExcKind
  | invalidSignature
  | eofError
  | other (name : PyStr)
deriving DecidableEq

/-- ExecutionResult (src/executor.py lines 93-134): success flag, packed
data, packed error, captured stdout text. -/
structure ExecutionResult where
  success : Bool
  rdata : RData
  error : Option ExcKind
  stdoutS : PyStr
deriving DecidableEq

/-- Serialisation of the data payload inside pack. -/
def RData.enc : RData → List Nat
  | .noneD => [0]
  | .requireInput => [1]
  | .val s => 2 :: (strBytes s).length :: strBytes s

/-- Serialisation of the error field inside pack. -/
def encErr : Option ExcKind → List Nat
  | none => [0]
  | some .invalidSignature => [1, 0]
  | some .eofError => [1, 1]
  | some (.other s) => 1 :: 2 :: (strBytes s).length :: strBytes s

/-- ExecutionResult.pack (lines 105-112): model of pickle.dumps on the
result dictionary, as an injective byte encoding of the four fields. -/
def ExecutionResult.pack (r : ExecutionResult) : List Nat :=
  (if r.success then 1 else 0) :: r.rdata.enc ++ encErr r.error ++
    strBytes r.stdoutS

/-- Parsing of a packed data payload, with the remaining bytes. -/
def decRData : List Nat → RData × List Nat
  | 0 :: rest => (.noneD, rest)
  | 1 :: rest => (.requireInput, rest)
  | 2 :: len :: rest => (.val (bytesStr (rest.take len)), rest.drop len)
  | rest => (.noneD, rest)

/-- Parsing of a packed error field, with the remaining bytes. -/
def decErr : List Nat → Option ExcKind × List Nat
  | 0 :: rest => (none, rest)
  | 1 :: 0 :: rest => (some .invalidSignature, rest)
  | 1 :: 1 :: rest => (some .eofError, rest)
  | 1 :: 2 :: len :: rest => (some (.other (bytesStr (rest.take len))), rest.drop len)
  | rest => (none, rest)

/-- ExecutionResult.unpack (lines 113-122): model of pickle.loads,
inverse of pack on its range. -/
def ExecutionResult.unpack (bs : List Nat) : ExecutionResult :=
  match bs with
  | [] => ⟨true, .noneD, none, []⟩
  | s :: rest =>
    let pd := decRData rest
    let pe := decErr pd.2
    ⟨s == 1, pd.1, pe.1, bytesStr pe.2⟩

/-- The failure Outcome synthesised on signature-verification failure:
ExecutionResult(False, None, InvalidSignature(), '') in src/server.py
line 72 and src/client.py line 73. -/
def invalidSignatureResult : ExecutionResult :=
  ⟨false, .noneD, some .invalidSignature, []⟩

/-- Entropy supply standing for the os.urandom draws of random_key_iv:
the i-th encryption performed consumes the pair (key, iv) at index i. -/
def entropyOK (ent : Nat → List Nat × List Nat) : Prop :=
  ∀ i, (ent i).1.length = AES_KEY_SIZE ∧ bytesOK (ent i).1 ∧
    (ent i).2.length = AES_block_size

/-- Wire protection applied by ShellClient._send (src/client.py lines
57-63) and identically by ShellServer._send (src/server.py lines 56-62):
encrypt when mode is 'encrypt', prepend a signature when mode is
'signature', otherwise send the data unchanged.  The entropy counter
advances on each encryption. -/
def protectWire (mng : SecurityManager) (mode : PyStr)
    (ent : Nat → List Nat × List Nat) (ctr : Nat) (data : List Nat) :
    Except SecurityError (List Nat × Nat) :=
  if mode = pystr "encrypt" then
    match mng.encrypt (ent ctr).1 (ent ctr).2 data with
    | .error e => .error e
    | .ok c => .ok (c, ctr + 1)
  else if mode = pystr "signature" then
    .ok (mng.sign data ++ data, ctr)
  else
    .ok (data, ctr)

/-- Per-connection server session state (src/server.py): security
manager, current mode string, handshake flag, abort flag. -/
structure SrvState where
  manager : SecurityManager
  mode : PyStr
  handshaken : Bool
  aborted : Bool
deriving DecidableEq

/-- ShellServer._recv (src/server.py lines 63-75): unwrap an incoming
envelope under the current mode.  In 'encrypt' mode decryption errors
(InvalidPadding in particular) propagate as exceptions; in 'signature'
mode a failed verification sends a packed invalid-signature Outcome back
(protected under the current mode by _send) and yields (False, b'').
Returns the (ret, data) pair, the envelopes sent, and the entropy
counter. -/
def srvRecv (s : SrvState) (ent : Nat → List Nat × List Nat) (ctr : Nat)
    (wire : List Nat) :
    Except SecurityError ((Bool × List Nat) × List (List Nat) × Nat) :=
  if s.mode = pystr "encrypt" then
    match s.manager.decrypt wire with
    | .error e => .error e
    | .ok d => .ok ((true, d), [], ctr)
  else if s.mode = pystr "signature" then
    let signature := wire.take RSA_SIGNATURE_SIZE
    let d := wire.drop RSA_SIGNATURE_SIZE
    match s.manager.verify d signature with
    | .error e => .error e
    | .ok true => .ok ((true, d), [], ctr)
    | .ok false =>
      match protectWire s.manager s.mode ent ctr
          invalidSignatureResult.pack with
      | .error e => .error e
      | .ok (w, ctr') => .ok ((false, []), [w], ctr')
  else
    .ok ((true, wire), [], ctr)

/-- ShellServer._handshake (src/server.py lines 51-55): load the peer key,
reply with the local exported key through _send (still under the old
mode), then set mode to 'signature'. -/
def srvHandshake (s : SrvState) (ent : Nat → List Nat × List Nat)
    (ctr : Nat) (data : List Nat) :
    Except SecurityError (SrvState × List (List Nat) × Nat) :=
  let s1 : SrvState := { s with manager := s.manager.load data }
  match protectWire s1.manager s1.mode ent ctr s1.manager.export with
  | .error e => .error e
  | .ok (w, ctr') => .ok ({ s1 with mode := pystr "signature" }, [w], ctr')

/-- Static help text (config value 'shell.helpmsg'; its contents are
irrelevant to the protocol). -/
def HELPMSG : PyStr := pystr "helpmsg"

/-- Executor.metacommand (src/executor.py lines 211-228), acting on the
server state through switchMode and abort.  Returns none when abort
raised ServerExit ('exit' branch, which sets the aborted flag and never
returns a result). -/
def metacommand (s : SrvState) (cmd : PyStr) : Option ExecutionResult × SrvState :=
  let c := pyLower (pyStrip cmd)
  if c = pystr "mode.encrypt" then
    (some ⟨true, .noneD, none, []⟩, { s with mode := pystr "encrypt" })
  else if c = pystr "mode.signature" then
    (some ⟨true, .noneD, none,
      pystr "Warning: Swiching to insecure context.\n"⟩,
      { s with mode := pystr "signature" })
  else if c = pystr "mode" then
    (some ⟨true, .noneD, none, s.mode ++ pystr "\n"⟩, s)
  else if c = pystr "help" then
    (some ⟨true, .noneD, none, HELPMSG⟩, s)
  else if c = pystr "exit" then
    (none, { s with aborted := true })
  else
    (some ⟨true, .noneD, none,
      pystr "No metacommand named " ++ c ++ pystr "\n"⟩, s)

/-- Executor.execute (src/executor.py lines 195-210) with the eval/exec
interpreter abstracted as the external parameter pyEval (the statement
interpreter is out of protocol scope; its try/except wrapper always
yields an ExecutionResult).  Decodes the statement, intercepts
'#:'-prefixed metacommands, otherwise invokes the interpreter; the third
component records the statements handed to the interpreter. -/
def executorExecute (pyEval : PyStr → ExecutionResult) (s : SrvState)
    (stmt : List Nat) : Option ExecutionResult × SrvState × List PyStr :=
  let st := bytesStr stmt
  if pyStartsWith (pystr "#:") st then
    let p := metacommand s (st.drop 2)
    (p.1, p.2, [])
  else
    (some (pyEval st), s, [st])

/-- Outcome of one iteration of ShellServer._main (src/server.py lines
40-48) on a received envelope: continue looping, exit the loop (ServerExit
caught at line 49, connection closed), or propagate an uncaught
exception. -/
inductive MainOut
  | cont (s : SrvState) (sent : List (List Nat)) (calls : List PyStr) (ctr : Nat)
  | exited (s : SrvState) (sent : List (List Nat)) (calls : List PyStr)
  | fault (e : SecurityError) (sent : List (List Nat)) (calls : List PyStr)
deriving DecidableEq

/-- One iteration of ShellServer._main on an incoming envelope: receive
(faults propagate), skip when verification failed, otherwise either run
the handshake (first message) or execute the statement and send back the
packed result under the possibly-updated mode. -/
def srvMainStep (pyEval : PyStr → ExecutionResult) (s : SrvState)
    (ent : Nat → List Nat × List Nat) (ctr : Nat) (wire : List Nat) :
    MainOut :=
  match srvRecv s ent ctr wire with
  | .error e => .fault e [] []
  | .ok ((ret, d), sent, ctr1) =>
    if !ret then .cont s sent [] ctr1
    else if s.handshaken then
      match executorExecute pyEval s d with
      | (none, s', calls) => .exited s' sent calls
      | (some r, s', calls) =>
        match protectWire s'.manager s'.mode ent ctr1 r.pack with
        | .error e => .fault e sent calls
        | .ok (w, ctr2) => .cont s' (sent ++ [w]) calls ctr2
    else
      match srvHandshake s ent ctr1 d with
      | .error e => .fault e sent []
      | .ok (s', hw, ctr2) =>
        .cont { s' with handshaken := true } (sent ++ hw) [] ctr2

/-- Events a connection delivers to the server: a framed message, or the
peer closing the stream (empty length header, raising ServerExit in
SocketWrapper.recv). -/
inductive ConnEvent
  | msg (wire : List Nat)
  | closed
deriving DecidableEq

/-- Result of serving one connection to completion: the per-connection
loop ended by ServerExit (peer disconnect or abort), an uncaught
exception propagated, or the modelled event list was exhausted while the
server was still blocked in recv. -/
inductive ConnResult
  | closedConn (s : SrvState) (sent : List (List Nat)) (calls : List PyStr)
  | faulted (e : SecurityError) (sent : List (List Nat)) (calls : List PyStr)
  | starved (s : SrvState) (sent : List (List Nat)) (calls : List PyStr)
deriving DecidableEq

/-- ShellServer._main (src/server.py lines 37-50) over a list of
connection events: loop until ServerExit (caught, closing the client) or
an uncaught exception propagates. -/
def runConn (pyEval : PyStr → ExecutionResult) (s : SrvState)
    (ent : Nat → List Nat × List Nat) (ctr : Nat) :
    List ConnEvent → List (List Nat) → List PyStr → ConnResult
  | [], sent, calls => .starved s sent calls
  | .closed :: _, sent, calls => .closedConn s sent calls
  | .msg w :: rest, sent, calls =>
    match srvMainStep pyEval s ent ctr w with
    | .cont s' sw cl ctr' => runConn pyEval s' ent ctr' rest (sent ++ sw) (calls ++ cl)
    | .exited s' sw cl => .closedConn s' (sent ++ sw) (calls ++ cl)
    | .fault e sw cl => .faulted e (sent ++ sw) (calls ++ cl)

/-- ShellServer.serve (src/server.py lines 27-36): iterative accept loop.
Each accepted connection gets a fresh SecurityManager (its key seed is
the first component of the pair), empty mode string and cleared
handshake flag; serving stops when the abort flag is set, and an
exception escaping _main (e.g. InvalidPadding) escapes serve as well,
abandoning the remaining connections. -/
def serveRun (pyEval : PyStr → ExecutionResult)
    (ent : Nat → List Nat × List Nat) :
    List (Nat × List ConnEvent) → List ConnResult
  | [] => []
  | (k, evs) :: rest =>
    match runConn pyEval ⟨⟨k, none⟩, pystr "", false, false⟩ ent 0 evs [] [] with
    | .closedConn s sent calls =>
      if s.aborted then [.closedConn s sent calls]
      else .closedConn s sent calls :: serveRun pyEval ent rest
    | .faulted e sent calls => [.faulted e sent calls]
    | .starved s sent calls => [.starved s sent calls]

/-- Client session state (src/client.py): security manager and current
mode string, initially empty (plaintext). -/
structure CliState where
  manager : SecurityManager
  mode : PyStr
deriving DecidableEq

/-- ShellClient construction (src/client.py lines 25-29): fresh manager,
empty mode. -/
def cliInit (k : Nat) : CliState := ⟨⟨k, none⟩, pystr ""⟩

/-- ShellClient.connect (src/client.py lines 33-38): send the exported
local key as a raw frame, load the raw reply as the remote key, set mode
to 'signature'.  Returns the new state and the frame sent. -/
def cliConnect (c : CliState) (reply : List Nat) : CliState × List Nat :=
  ({ manager := c.manager.load reply, mode := pystr "signature" },
    c.manager.export)

/-- ShellClient.metacommand (src/client.py lines 47-53): local
interpretation of mode-switch commands. -/
def cliMetacommand (c : CliState) (cmd : PyStr) : CliState :=
  let cl := pyLower (pyStrip cmd)
  if cl = pystr "mode.encrypt" then { c with mode := pystr "encrypt" }
  else if cl = pystr "mode.signature" then { c with mode := pystr "signature" }
  else c

/-- ShellClient._recv (src/client.py lines 64-75): unwrap an incoming
envelope under the current mode; on signature failure the client
fabricates a packed invalid-signature result instead of sending one. -/
def cliRecv (c : CliState) (wire : List Nat) : Except SecurityError (List Nat) :=
  if c.mode = pystr "encrypt" then
    c.manager.decrypt wire
  else if c.mode = pystr "signature" then
    let signature := wire.take RSA_SIGNATURE_SIZE
    let d := wire.drop RSA_SIGNATURE_SIZE
    match c.manager.verify d signature with
    | .error e => .error e
    | .ok true => .ok d
    | .ok false => .ok invalidSignatureResult.pack
  else
    .ok wire

/-- ShellClient.execute (src/client.py lines 39-46): protect and send the
encoded statement under the current mode, THEN interpret a '#:'
metacommand locally (changing the mode), then receive and unpack the
response under the possibly-updated mode.  Returns the unpacked result,
the new state, the wire message sent, and the entropy counter. -/
def cliExecute (c : CliState) (ent : Nat → List Nat × List Nat) (ctr : Nat)
    (code : PyStr) (incoming : List Nat) :
    Except SecurityError (ExecutionResult × CliState × List Nat × Nat) :=
  match protectWire c.manager c.mode ent ctr (strBytes code) with
  | .error e => .error e
  | .ok (w, ctr1) =>
    let c1 := if pyStartsWith (pystr "#:") code
      then cliMetacommand c (code.drop 2) else c
    match cliRecv c1 incoming with
    | .error e => .error e
    | .ok d => .ok (ExecutionResult.unpack d, c1, w, ctr1)

/-- Composition of the handshake (src/client.py lines 33-38 with
src/server.py lines 43-55): the client's raw export is processed by the
server as its first message, and the server's raw reply is loaded by the
client.  Returns the final client state, final server state, and the two
frames that travelled, when the exchange goes through. -/
def handshakeExchange (pyEval : PyStr → ExecutionResult)
    (ent : Nat → List Nat × List Nat) (ck sk : Nat) :
    Option (CliState × SrvState × List (List Nat)) :=
  let c0 := cliInit ck
  let s0 : SrvState := ⟨⟨sk, none⟩, pystr "", false, false⟩
  let f1 := c0.manager.export
  match srvMainStep pyEval s0 ent 0 f1 with
  | .cont s1 sent _ _ =>
    match sent with
    | [f2] => some ((cliConnect c0 f2).1, s1, [f1, f2])
    | _ => none
  | _ => none

/-- Errors of the framing layer: ServerExit on an empty length header
(src/network.py lines 16-18), and Python's struct.error when
struct.unpack('>I', head) is applied to a head that is not exactly 4
bytes long. -/
inductive NetError
  | serverExit
  | structError
deriving DecidableEq

/-- Model of a single blocking socket.recv(n) call on a stream whose
pending data arrives in chunks: returns at most n bytes — the whole
first chunk when it fits, otherwise its first n bytes — and never more
than one chunk per call. -/
def sockRecvOnce (n : Nat) (stream : List (List Nat)) :
    List Nat × List (List Nat) :=
  match stream with
  | [] => ([], [])
  | c :: rest =>
    if c.length ≤ n then (c, rest) else (c.take n, c.drop n :: rest)

/-- SocketWrapper.send (src/network.py lines 10-13): the byte sequence
written to the stream is a 4-byte big-endian length header followed by
the payload (struct.pack('>I', len(data)) + data, for payloads below
2^32 bytes). -/
def swSend (data : List Nat) : List Nat := natToBytes 4 data.length ++ data

/-- SocketWrapper.recv (src/network.py lines 14-19): ONE socket.recv(4)
call for the header — raising ServerExit when it yields nothing, and
struct.error when it yields fewer than 4 bytes — then ONE
socket.recv(length) call for the payload, without looping to fill the
requested count. -/
def swRecv (stream : List (List Nat)) :
    Except NetError (List Nat × List (List Nat)) :=
  let p := sockRecvOnce 4 stream
  if p.1 = [] then .error .serverExit
  else if p.1.length = 4 then .ok (sockRecvOnce (bytesToNat p.1) p.2)
  else .error .structError

/-- RuntimeStdin (src/executor.py lines 136-163): the buffered emulated
standard input of the executor; only the buffer is state, the server
round trip of _requireInput is threaded in as the string it returned. -/
structure RuntimeStdin where
  buffer : PyStr
deriving DecidableEq

/-- RuntimeStdin.readline (src/executor.py lines 148-154), with the
result of server.requireInput supplied as `required`: when the buffer is
empty the pending input request fires and its result is appended
(put), then the buffer is split at the first newline. -/
def stdinReadline (st : RuntimeStdin) (required : PyStr) : PyStr × RuntimeStdin :=
  let buf := if st.buffer = [] then st.buffer ++ required else st.buffer
  let p := pySplit1 '\n' buf
  (p.1, ⟨p.2.getD []⟩)

/-- Model of the external Python builtin input(): it reads one line from
sys.stdin.readline and raises EOFError when that line is empty. -/
def pyInput (st : RuntimeStdin) (required : PyStr) :
    Except Unit (PyStr × RuntimeStdin) :=
  let p := stdinReadline st required
  if p.1 = [] then .error () else .ok p

/-- A command whose execution performs one input() call, run under
Executor.execute's try/except wrapper (src/executor.py lines 201-205):
an exception raised by the statement is converted into a failure
ExecutionResult.  `required` is the string the pending input request
obtained from the client. -/
def execInputCommand (required : PyStr) : ExecutionResult :=
  match pyInput ⟨[]⟩ required with
  | .error _ => ⟨false, .noneD, some .eofError, []⟩
  | .ok p => ⟨true, .val p.1, none, []⟩

/-- ShellServer.requireInput (src/server.py lines 82-87): send an
InputRequested outcome carrying the prompt, perform a nested receive on
the same connection, and return '' when the receive reported a
verification failure, the decoded data otherwise.  Returns the string
handed to the executor, all envelopes sent, and the entropy counter. -/
def srvRequireInput (s : SrvState) (ent : Nat → List Nat × List Nat)
    (ctr : Nat) (prompt : PyStr) (incoming : List Nat) :
    Except SecurityError (PyStr × List (List Nat) × Nat) :=
  match protectWire s.manager s.mode ent ctr
      (ExecutionResult.pack ⟨true, .requireInput, none, prompt⟩) with
  | .error e => .error e
  | .ok (w, ctr1) =>
    match srvRecv s ent ctr1 incoming with
    | .error e => .error e
    | .ok ((ret, d), sent, ctr2) =>
      if !ret then .ok (pystr "", w :: sent, ctr2)
      else .ok (bytesStr d, w :: sent, ctr2)

theorem decodeKey_encodeKeyAux (fuel n : Nat) (h : n < fuel) :
    decodeKey (encodeKeyAux fuel n) = n := by
  induction fuel generalizing n with
  | zero => omega
  | succ fuel ih =>
    rw [encodeKeyAux]
    by_cases h0 : n = 0
    · simp [h0, decodeKey]
    · rw [if_neg h0, decodeKey]
      have hdiv : n / 256 < fuel := by
        have h1 : n / 256 < n := Nat.div_lt_self (by omega) (by norm_num)
        omega
      rw [ih _ hdiv]
      omega

theorem decodeKey_encodeKey (n : Nat) : decodeKey (encodeKey n) = n :=
  decodeKey_encodeKeyAux (n + 1) n (Nat.lt_succ_self n)

theorem natToBytes_length (w n : Nat) : (natToBytes w n).length = w := by
  induction w generalizing n with
  | zero => rfl
  | succ w ih => simp [natToBytes, ih]

theorem natToBytes_bytesOK (w n : Nat) : bytesOK (natToBytes w n) := by
  induction w generalizing n with
  | zero => intro b hb; simp [natToBytes] at hb
  | succ w ih =>
    intro b hb
    simp only [natToBytes, List.mem_append, List.mem_singleton] at hb
    rcases hb with hb | hb
    · exact ih _ b hb
    · subst hb; exact Nat.mod_lt _ (by norm_num)

theorem pad_need_pos (data : List Nat) (size : Nat) (h : 0 < size) :
    0 < size - data.length % size :=
  Nat.sub_pos_of_lt (Nat.mod_lt _ h)

theorem unpad_pad (data : List Nat) (size : Nat) (h : 0 < size) :
    unpad (pad data size) = .ok data := by
  have hpos : 0 < size - data.length % size := pad_need_pos data size h
  set need := size - data.length % size with hneed
  have hrep : List.replicate need need ≠ [] := by
    simp [List.replicate_eq_nil_iff]; omega
  have hlastrep : (List.replicate need need).getLast? = some need := by
    obtain ⟨k, hk⟩ := Nat.exists_eq_succ_of_ne_zero (by omega : need ≠ 0)
    rw [hk, List.replicate_succ', List.getLast?_concat]
  have hlast : (pad data size).getLast? = some need := by
    show (data ++ List.replicate need need).getLast? = some need
    rw [List.getLast?_append, hlastrep]
    rfl
  have hlen : (pad data size).length = data.length + need := by
    simp [pad]
  unfold unpad
  rw [hlast]
  have hneed0 : need ≠ 0 := by omega
  simp only [hneed0, if_neg, ite_false]
  have htake : (pad data size).take ((pad data size).length - need) = data := by
    rw [hlen, Nat.add_sub_cancel]
    unfold pad
    exact List.take_left data _
  have hdrop : (pad data size).drop ((pad data size).length - need)
      = List.replicate need need := by
    rw [hlen, Nat.add_sub_cancel]
    unfold pad
    exact List.drop_left data _
  rw [htake, hdrop, if_pos rfl]

theorem bunshift_bshift (s b : Nat) (hb : b < 256) : bunshift s (bshift s b) = b := by
  unfold bshift bunshift
  rw [Nat.mod_add_mod]
  obtain ⟨q, hq⟩ : ∃ q, b + s + (256 - s % 256) = b + 256 * q := by
    refine ⟨s / 256 + 1, ?_⟩
    omega
  rw [hq, Nat.add_mul_mod_self_left, Nat.mod_eq_of_lt hb]

theorem map_bunshift_bshift (s : Nat) (l : List Nat) (h : bytesOK l) :
    l.map (fun b => bunshift s (bshift s b)) = l := by
  induction l with
  | nil => rfl
  | cons a t ih =>
    have ha : a < 256 := h a (by simp)
    have ht : bytesOK t := fun b hb => h b (by simp [hb])
    simp [bunshift_bshift s a ha, ih ht]

theorem aesDecrypt_aesEncrypt (key iv data : List Nat) (h : bytesOK data) :
    aesDecrypt key iv (aesEncrypt key iv data) = data := by
  unfold aesDecrypt aesEncrypt
  rw [List.map_map]
  exact map_bunshift_bshift _ data h

theorem rsaSign_length (key : Nat) (data : List Nat) :
    (rsaSign key data).length = GENERATED_SIGNATURE_SIZE :=
  natToBytes_length _ _

theorem rsaEncrypt_length (key : Nat) (m : List Nat)
    (h : m.length < RSA_CIPHER_SIZE) :
    (rsaEncrypt key m).length = RSA_CIPHER_SIZE := by
  have : RSA_CIPHER_SIZE = 128 := rfl
  simp [rsaEncrypt]
  omega

theorem rsaDecrypt_rsaEncrypt (key : Nat) (m : List Nat)
    (hlen : m.length < RSA_CIPHER_SIZE) (hok : bytesOK m) :
    rsaDecrypt key (rsaEncrypt key m) = m := by
  have hall : bytesOK ((m.length :: m) ++
      List.replicate (RSA_CIPHER_SIZE - 1 - m.length) 0) := by
    intro b hb
    simp only [List.mem_append, List.mem_cons, List.mem_replicate] at hb
    rcases hb with (hb | hb) | hb
    · subst hb
      have : RSA_CIPHER_SIZE = 128 := rfl
      omega
    · exact hok b hb
    · omega
  unfold rsaDecrypt rsaEncrypt
  rw [List.map_map]
  simp only [Function.comp_def]
  rw [map_bunshift_bshift _ _ hall]
  simp [List.take_left]

theorem bytesOK_pad (data : List Nat) (size : Nat) (hsize : size ≤ 255)
    (h : bytesOK data) : bytesOK (pad data size) := by
  intro b hb
  simp only [pad, List.mem_append, List.mem_replicate] at hb
  rcases hb with hb | hb
  · exact h b hb
  · omega

theorem bytesStr_strBytes (s : PyStr) : bytesStr (strBytes s) = s := by
  unfold bytesStr strBytes
  rw [List.map_map]
  simp [Function.comp_def, Char.ofNat_toNat]

/-- Core hybrid-encryption round trip between correctly paired managers. -/
theorem decrypt_encrypt (m1 m2 : SecurityManager) (key iv data : List Nat)
    (hpair : m1.remoteKey = some m2.privateKey)
    (hklen : key.length = AES_KEY_SIZE) (hkok : bytesOK key)
    (hivlen : iv.length = AES_block_size) (hdok : bytesOK data) :
    ∃ c, m1.encrypt key iv data = .ok c ∧ m2.decrypt c = .ok data := by
  have hklt : key.length < RSA_CIPHER_SIZE := by
    rw [hklen]; norm_num [AES_KEY_SIZE, RSA_CIPHER_SIZE, RSA_SIGNATURE_SIZE,
      rsaSignatureSizeCfg, rsaKeySizeCfg]
  refine ⟨rsaEncrypt m2.privateKey key ++
    (iv ++ aesEncrypt key iv (pad data AES_block_size)), ?_, ?_⟩
  · rw [SecurityManager.encrypt, hpair]
    rfl
  · have helen := rsaEncrypt_length m2.privateKey key hklt
    rw [SecurityManager.decrypt]
    rw [List.take_left' helen, List.drop_left' helen]
    rw [rsaDecrypt_rsaEncrypt _ _ hklt hkok]
    rw [secDecrypt]
    rw [List.take_left' hivlen, List.drop_left' hivlen]
    rw [aesDecrypt_aesEncrypt _ _ _
      (bytesOK_pad data AES_block_size (by norm_num [AES_block_size]) hdok)]
    exact unpad_pad data AES_block_size (by norm_num [AES_block_size])


theorem sign_length (m : SecurityManager) (d : List Nat) :
    (m.sign d).length = RSA_SIGNATURE_SIZE := by
  rw [SecurityManager.sign, rsaSign_length]
  rfl

theorem verify_sign (m1 m2 : SecurityManager) (d : List Nat)
    (hq : m2.remoteKey = some m1.privateKey) :
    m2.verify d (m1.sign d) = .ok true := by
  rw [SecurityManager.verify, hq, SecurityManager.sign]
  simp

/-- C1: for every payload b and every mode among PLAINTEXT (''), SIGNED
('signature') and ENCRYPTED ('encrypt'), between participants that have
correctly exchanged keys, unwrapping (ShellServer._recv) the envelope
produced by wrapping (the _send protection logic) recovers exactly b; in
particular unpad(pad(b)) = b and decrypt(encrypt(b)) = b between
correctly paired SecurityManagers. -/
theorem C1_protect_unprotect_roundtrip (mode : PyStr)
    (hm : mode = pystr "" ∨ mode = pystr "signature" ∨ mode = pystr "encrypt")
    (m1 m2 : SecurityManager)
    (hp : m1.remoteKey = some m2.privateKey)
    (hq : m2.remoteKey = some m1.privateKey)
    (b : List Nat) (hb : bytesOK b)
    (ent : Nat → List Nat × List Nat) (hent : entropyOK ent) (ctr : Nat) :
    (∃ w ctr', protectWire m1 mode ent ctr b = .ok (w, ctr') ∧
      srvRecv ⟨m2, mode, true, false⟩ ent ctr' w = .ok ((true, b), [], ctr')) ∧
    unpad (pad b) = .ok b ∧
    (∃ c, m1.encrypt (ent ctr).1 (ent ctr).2 b = .ok c ∧
      m2.decrypt c = .ok b) := by
  obtain ⟨hk1, hk2, hk3⟩ := hent ctr
  have henc : ∃ c, m1.encrypt (ent ctr).1 (ent ctr).2 b = .ok c ∧
      m2.decrypt c = .ok b :=
    decrypt_encrypt m1 m2 _ _ b hp hk1 hk2 hk3 hb
  refine ⟨?_, unpad_pad b AES_block_size (by norm_num [AES_block_size]), henc⟩
  rcases hm with hm | hm | hm
  · subst hm
    refine ⟨b, ctr, ?_, ?_⟩
    · rw [protectWire, if_neg (by decide), if_neg (by decide)]
    · rw [srvRecv]
      simp only [if_neg (show ¬((pystr "") = pystr "encrypt") by decide),
        if_neg (show ¬((pystr "") = pystr "signature") by decide)]
  · subst hm
    have hne : ¬(pystr "signature" = pystr "encrypt") := by decide
    refine ⟨m1.sign b ++ b, ctr, ?_, ?_⟩
    · rw [protectWire, if_neg hne, if_pos rfl]
    · rw [srvRecv, if_neg hne, if_pos rfl]
      rw [List.take_left' (sign_length m1 b), List.drop_left' (sign_length m1 b)]
      simp only [verify_sign m1 m2 b hq]
  · subst hm
    obtain ⟨c, hc1, hc2⟩ := henc
    refine ⟨c, ctr + 1, ?_, ?_⟩
    · rw [protectWire, if_pos rfl, hc1]
    · rw [srvRecv, hc2, if_pos rfl]

theorem C1_witness :
    (∃ w ctr', protectWire ⟨3, some 5⟩ (pystr "encrypt")
        (fun _ => (List.replicate 16 7, List.replicate 16 9)) 0 [104, 105] =
          .ok (w, ctr') ∧
      srvRecv ⟨⟨5, some 3⟩, pystr "encrypt", true, false⟩
        (fun _ => (List.replicate 16 7, List.replicate 16 9)) ctr' w =
          .ok ((true, [104, 105]), [], ctr')) ∧
    unpad (pad [104, 105]) = .ok [104, 105] ∧
    (∃ c, SecurityManager.encrypt ⟨3, some 5⟩
        ((fun _ => (List.replicate 16 7, List.replicate 16 9)) 0).1
        ((fun _ => (List.replicate 16 7, List.replicate 16 9)) 0).2
        [104, 105] = .ok c ∧
      SecurityManager.decrypt ⟨5, some 3⟩ c = .ok [104, 105]) :=
  C1_protect_unprotect_roundtrip (pystr "encrypt") (by decide)
    ⟨3, some 5⟩ ⟨5, some 3⟩ rfl rfl [104, 105] (by decide)
    (fun _ => (List.replicate 16 7, List.replicate 16 9))
    (fun _ => ⟨rfl, fun b hb => by rw [List.eq_of_mem_replicate hb]; norm_num,
      rfl⟩) 0

/-- C2: the framing layer's receive does NOT loop until the declared
count is obtained.  The stream below delivers exactly the bytes written
by send([7,7]) — a 4-byte header declaring length 2, then the payload —
but in three chunks; the single sock.recv(2) call returns only the first
1-byte chunk, so recv yields [7] instead of [7,7] (third conjunct: with
the whole transmission in one chunk the message is recovered, so the
loss is caused purely by chunking; fourth conjunct: when even the header
arrives in 1-byte chunks, recv raises struct.error instead of looping). -/
theorem C2_recv_does_not_loop :
    ([[0, 0, 0, 2], [7], [7]] : List (List Nat)).flatten = swSend [7, 7] ∧
    swRecv [[0, 0, 0, 2], [7], [7]] = .ok ([7], [[7]]) ∧
    swRecv [swSend [7, 7]] = .ok ([7, 7], []) ∧
    swRecv [[0], [0], [0], [2], [7], [7]] = .error .structError :=
  ⟨rfl, rfl, rfl, rfl⟩

theorem srvRecv_badsig (s : SrvState) (rk : Nat)
    (ent : Nat → List Nat × List Nat) (ctr : Nat) (e : List Nat)
    (hm : s.mode = pystr "signature") (hr : s.manager.remoteKey = some rk)
    (hbad : e.take RSA_SIGNATURE_SIZE ≠ rsaSign rk (e.drop RSA_SIGNATURE_SIZE)) :
    srvRecv s ent ctr e = .ok ((false, []),
      [s.manager.sign invalidSignatureResult.pack ++
        invalidSignatureResult.pack], ctr) := by
  have hne : ¬(pystr "signature" = pystr "encrypt") := by decide
  rw [srvRecv, hm, if_neg hne, if_pos rfl]
  simp only [SecurityManager.verify, hr]
  rw [decide_eq_false hbad]
  rw [protectWire, if_neg hne, if_pos rfl]

/-- C3: in SIGNED mode, an incoming envelope whose payload fails
signature verification makes the server synthesize the invalid-signature
failure Outcome and send it back (signed, via _send) without invoking
the Command Processor on the payload; the state is unchanged, the
connection stays open (the loop continues), and the serving loop simply
proceeds to the next message of the connection. -/
theorem C3_badsig_synthesizes_failure_outcome
    (pyEval : PyStr → ExecutionResult) (s : SrvState) (rk : Nat)
    (ent : Nat → List Nat × List Nat) (ctr : Nat) (e : List Nat)
    (hm : s.mode = pystr "signature") (hr : s.manager.remoteKey = some rk)
    (hbad : e.take RSA_SIGNATURE_SIZE ≠ rsaSign rk (e.drop RSA_SIGNATURE_SIZE)) :
    srvMainStep pyEval s ent ctr e =
      .cont s [s.manager.sign invalidSignatureResult.pack ++
        invalidSignatureResult.pack] [] ctr ∧
    invalidSignatureResult.success = false ∧
    invalidSignatureResult.error = some .invalidSignature ∧
    (∀ rest sent calls,
      runConn pyEval s ent ctr (.msg e :: rest) sent calls =
        runConn pyEval s ent ctr rest
          (sent ++ [s.manager.sign invalidSignatureResult.pack ++
            invalidSignatureResult.pack]) calls) := by
  have hstep : srvMainStep pyEval s ent ctr e =
      .cont s [s.manager.sign invalidSignatureResult.pack ++
        invalidSignatureResult.pack] [] ctr := by
    rw [srvMainStep, srvRecv_badsig s rk ent ctr e hm hr hbad]
    rfl
  refine ⟨hstep, rfl, rfl, fun rest sent calls => ?_⟩
  rw [runConn, hstep]
  simp only [List.append_nil]

theorem C3_witness :
    srvMainStep (fun _ => ⟨true, .noneD, none, []⟩)
      ⟨⟨5, some 3⟩, pystr "signature", true, false⟩
      (fun _ => ([], [])) 0 [1, 2, 3] =
      .cont ⟨⟨5, some 3⟩, pystr "signature", true, false⟩
        [SecurityManager.sign ⟨5, some 3⟩ invalidSignatureResult.pack ++
          invalidSignatureResult.pack] [] 0 ∧
    invalidSignatureResult.success = false ∧
    invalidSignatureResult.error = some ExcKind.invalidSignature ∧
    (∀ rest sent calls,
      runConn (fun _ => ⟨true, .noneD, none, []⟩)
        ⟨⟨5, some 3⟩, pystr "signature", true, false⟩
        (fun _ => ([], [])) 0 (.msg [1, 2, 3] :: rest) sent calls =
        runConn (fun _ => ⟨true, .noneD, none, []⟩)
          ⟨⟨5, some 3⟩, pystr "signature", true, false⟩
          (fun _ => ([], [])) 0 rest
          (sent ++ [SecurityManager.sign ⟨5, some 3⟩
            invalidSignatureResult.pack ++ invalidSignatureResult.pack])
          calls) :=
  C3_badsig_synthesizes_failure_outcome (fun _ => ⟨true, .noneD, none, []⟩)
    ⟨⟨5, some 3⟩, pystr "signature", true, false⟩ 3
    (fun _ => ([], [])) 0 [1, 2, 3] rfl rfl (by decide)

/-- C10: in SIGNED mode with a loaded remote key the receive path is
total on envelopes shorter than the fixed signature length, the empty
envelope included: the split yields the whole (short) envelope as the
signature and an empty payload, verify returns false rather than
raising, and the receiver produces the invalid-signature failure Outcome
instead of crashing. -/
theorem C10_short_envelope_total (s : SrvState) (rk : Nat)
    (ent : Nat → List Nat × List Nat) (ctr : Nat) (e : List Nat)
    (hm : s.mode = pystr "signature") (hr : s.manager.remoteKey = some rk)
    (hshort : e.length < RSA_SIGNATURE_SIZE) :
    e.take RSA_SIGNATURE_SIZE = e ∧
    e.drop RSA_SIGNATURE_SIZE = [] ∧
    s.manager.verify (e.drop RSA_SIGNATURE_SIZE) (e.take RSA_SIGNATURE_SIZE) =
      .ok false ∧
    srvRecv s ent ctr e = .ok ((false, []),
      [s.manager.sign invalidSignatureResult.pack ++
        invalidSignatureResult.pack], ctr) := by
  have htake : e.take RSA_SIGNATURE_SIZE = e :=
    List.take_of_length_le (Nat.le_of_lt hshort)
  have hdrop : e.drop RSA_SIGNATURE_SIZE = [] :=
    List.drop_eq_nil_of_le (Nat.le_of_lt hshort)
  have hbad : e.take RSA_SIGNATURE_SIZE ≠ rsaSign rk (e.drop RSA_SIGNATURE_SIZE) := by
    intro hc
    have : (e.take RSA_SIGNATURE_SIZE).length = RSA_SIGNATURE_SIZE := by
      rw [hc, rsaSign]
      exact natToBytes_length _ _
    rw [htake] at this
    omega
  refine ⟨htake, hdrop, ?_, srvRecv_badsig s rk ent ctr e hm hr hbad⟩
  rw [SecurityManager.verify, hr]
  simp only [Except.ok.injEq]
  rw [decide_eq_false]
  intro hc
  have : (e.take RSA_SIGNATURE_SIZE).length = RSA_SIGNATURE_SIZE := by
    rw [hc, rsaSign]
    exact natToBytes_length _ _
  rw [htake] at this
  omega

theorem C10_witness :
    ([] : List Nat).take RSA_SIGNATURE_SIZE = [] ∧
    ([] : List Nat).drop RSA_SIGNATURE_SIZE = [] ∧
    SecurityManager.verify ⟨5, some 3⟩ (([] : List Nat).drop RSA_SIGNATURE_SIZE)
      (([] : List Nat).take RSA_SIGNATURE_SIZE) = .ok false ∧
    srvRecv ⟨⟨5, some 3⟩, pystr "signature", true, false⟩
      (fun _ => ([], [])) 0 [] = .ok ((false, []),
      [SecurityManager.sign ⟨5, some 3⟩ invalidSignatureResult.pack ++
        invalidSignatureResult.pack], 0) :=
  C10_short_envelope_total ⟨⟨5, some 3⟩, pystr "signature", true, false⟩ 3
    (fun _ => ([], [])) 0 [] rfl rfl (by decide)

/-- C4: removing block padding fails with InvalidPadding whenever the
trailing bytes do not all equal the declared pad length (the last byte),
so it succeeds only on well-formed padding; and in ENCRYPTED mode the
receive path never converts a decryption fault into a normal failure
Outcome — ShellServer._recv and the _main iteration propagate it as an
exception (no envelope is sent, no result synthesized). -/
theorem C4_invalid_padding_propagates (data : List Nat) (plen : Nat)
    (s : SrvState) (ent : Nat → List Nat × List Nat) (ctr : Nat)
    (wire : List Nat) (e : SecurityError)
    (hlast : data.getLast? = some plen)
    (hmis : (if plen = 0 then data else data.drop (data.length - plen)) ≠
      List.replicate plen plen)
    (hm : s.mode = pystr "encrypt")
    (hd : s.manager.decrypt wire = .error e) :
    unpad data = .error (.invalidPadding
      (if plen = 0 then data else data.drop (data.length - plen))) ∧
    (∀ r, unpad data ≠ .ok r) ∧
    srvRecv s ent ctr wire = .error e ∧
    (∀ pyEval, srvMainStep pyEval s ent ctr wire = .fault e [] []) := by
  have hunpad : unpad data = .error (.invalidPadding
      (if plen = 0 then data else data.drop (data.length - plen))) := by
    rw [unpad, hlast]
    simp only [if_neg hmis]
  have hrecv : srvRecv s ent ctr wire = .error e := by
    rw [srvRecv, hm, if_pos rfl, hd]
  refine ⟨hunpad, ?_, hrecv, fun pyEval => ?_⟩
  · intro r hc
    rw [hunpad] at hc
    exact Except.noConfusion hc
  · rw [srvMainStep, hrecv]

theorem C4_witness :
    unpad [1, 2, 3] = .error (.invalidPadding
      (if 3 = 0 then [1, 2, 3] else
        List.drop (List.length [1, 2, 3] - 3) [1, 2, 3])) ∧
    (∀ r, unpad [1, 2, 3] ≠ .ok r) ∧
    srvRecv ⟨⟨5, some 3⟩, pystr "encrypt", true, false⟩
      (fun _ => ([], [])) 0 [] = .error .indexError ∧
    (∀ pyEval, srvMainStep pyEval ⟨⟨5, some 3⟩, pystr "encrypt", true, false⟩
      (fun _ => ([], [])) 0 [] = .fault .indexError [] []) :=
  C4_invalid_padding_propagates [1, 2, 3] 3
    ⟨⟨5, some 3⟩, pystr "encrypt", true, false⟩ (fun _ => ([], [])) 0 []
    .indexError rfl (by decide) rfl rfl

/-- C5: after the handshake (client sends its exported key raw, the
server loads it and replies with its own exported key raw, the client
loads the reply) both sides hold each other's key and both are in SIGNED
mode with the handshake flag set; the two frames that travelled are
exactly the two raw exported keys — sent while both modes were still the
initial empty (PLAINTEXT) mode, under which wire protection is the
identity, so nothing before handshake completion is sent under any other
mode. -/
theorem C5_handshake_establishes_signed (pyEval : PyStr → ExecutionResult)
    (ent : Nat → List Nat × List Nat) (ck sk : Nat) :
    handshakeExchange pyEval ent ck sk = some
      (⟨⟨ck, some sk⟩, pystr "signature"⟩,
       ⟨⟨sk, some ck⟩, pystr "signature", true, false⟩,
       [SecurityManager.export ⟨ck, none⟩, SecurityManager.export ⟨sk, none⟩]) ∧
    (cliInit ck).mode = pystr "" ∧
    (∀ (mng : SecurityManager) (ctr : Nat) (d : List Nat),
      protectWire mng (pystr "") ent ctr d = .ok (d, ctr)) := by
  have hne1 : ¬(pystr "" = pystr "encrypt") := by decide
  have hne2 : ¬(pystr "" = pystr "signature") := by decide
  have hraw : ∀ (mng : SecurityManager) (ctr : Nat) (d : List Nat),
      protectWire mng (pystr "") ent ctr d = .ok (d, ctr) := by
    intro mng ctr d
    rw [protectWire, if_neg hne1, if_neg hne2]
  refine ⟨?_, rfl, hraw⟩
  have hrecv : srvRecv ⟨⟨sk, none⟩, pystr "", false, false⟩ ent 0
      (SecurityManager.export ⟨ck, none⟩) =
      .ok ((true, SecurityManager.export ⟨ck, none⟩), [], 0) := by
    rw [srvRecv]
    simp only [if_neg hne1, if_neg hne2]
  have hhs : srvHandshake ⟨⟨sk, none⟩, pystr "", false, false⟩ ent 0
      (SecurityManager.export ⟨ck, none⟩) =
      .ok (⟨⟨sk, some ck⟩, pystr "signature", false, false⟩,
        [SecurityManager.export ⟨sk, none⟩], 0) := by
    rw [srvHandshake]
    simp only [SecurityManager.load, SecurityManager.export,
      decodeKey_encodeKey]
    rw [hraw]
  have hstep : srvMainStep pyEval ⟨⟨sk, none⟩, pystr "", false, false⟩ ent 0
      (SecurityManager.export ⟨ck, none⟩) =
      .cont ⟨⟨sk, some ck⟩, pystr "signature", true, false⟩
        [SecurityManager.export ⟨sk, none⟩] [] 0 := by
    rw [srvMainStep, hrecv]
    simp only [hhs, List.nil_append]
    rfl
  rw [handshakeExchange]
  simp only [cliInit, hstep]
  simp only [cliConnect, SecurityManager.load, SecurityManager.export,
    decodeKey_encodeKey]

theorem srvRecv_goodsig (s : SrvState) (m1 : SecurityManager)
    (ent : Nat → List Nat × List Nat) (ctr : Nat) (b : List Nat)
    (hm : s.mode = pystr "signature")
    (hq : s.manager.remoteKey = some m1.privateKey) :
    srvRecv s ent ctr (m1.sign b ++ b) = .ok ((true, b), [], ctr) := by
  have hne : ¬(pystr "signature" = pystr "encrypt") := by decide
  rw [srvRecv, hm, if_neg hne, if_pos rfl]
  rw [List.take_left' (sign_length m1 b), List.drop_left' (sign_length m1 b)]
  simp only [verify_sign m1 s.manager b hq]

theorem encrypt_ok (mng : SecurityManager) (rk : Nat) (key iv d : List Nat)
    (h : mng.remoteKey = some rk) :
    mng.encrypt key iv d =
      .ok (rsaEncrypt rk key ++ (iv ++ aesEncrypt key iv (pad d))) := by
  rw [SecurityManager.encrypt, h]
  rfl

/-- C6: mode changes are never retroactive.  With both peers paired and
in SIGNED mode, the client executing the '#: mode.encrypt' control
command protects the switch statement itself under the OLD (signed)
framing; the server verifies it under the old mode, switches its mode
locally (without invoking the processor), and already sends the response
under ENCRYPTED framing; the client, now in 'encrypt' mode, decrypts
that response and recovers the result.  Afterwards every send in
'encrypt' mode is encrypted, ordinary statements leave the mode
unchanged, and only the 'mode.signature' switch-back command restores
SIGNED mode. -/
theorem C6_mode_switch_not_retroactive (pyEval : PyStr → ExecutionResult)
    (m ms : SecurityManager)
    (hq : ms.remoteKey = some m.privateKey)
    (ent : Nat → List Nat × List Nat) (hent : entropyOK ent) (ctr : Nat) :
    (∃ w,
      protectWire m (pystr "signature") ent ctr
          (strBytes (pystr "#: mode.encrypt")) =
        .ok (m.sign (strBytes (pystr "#: mode.encrypt")) ++
          strBytes (pystr "#: mode.encrypt"), ctr) ∧
      srvMainStep pyEval ⟨ms, pystr "signature", true, false⟩ ent ctr
          (m.sign (strBytes (pystr "#: mode.encrypt")) ++
            strBytes (pystr "#: mode.encrypt")) =
        .cont ⟨ms, pystr "encrypt", true, false⟩ [w] [] (ctr + 1) ∧
      ms.encrypt (ent ctr).1 (ent ctr).2
          (ExecutionResult.pack ⟨true, .noneD, none, []⟩) = .ok w ∧
      cliExecute ⟨m, pystr "signature"⟩ ent ctr (pystr "#: mode.encrypt") w =
        .ok (⟨true, .noneD, none, []⟩, ⟨m, pystr "encrypt"⟩,
          m.sign (strBytes (pystr "#: mode.encrypt")) ++
            strBytes (pystr "#: mode.encrypt"), ctr)) ∧
    (∀ (d : List Nat) (ctr' : Nat), ∃ c,
      ms.encrypt (ent ctr').1 (ent ctr').2 d = .ok c ∧
      protectWire ms (pystr "encrypt") ent ctr' d = .ok (c, ctr' + 1)) ∧
    (∀ stmt : List Nat, pyStartsWith (pystr "#:") (bytesStr stmt) = false →
      executorExecute pyEval ⟨ms, pystr "encrypt", true, false⟩ stmt =
        (some (pyEval (bytesStr stmt)),
          ⟨ms, pystr "encrypt", true, false⟩, [bytesStr stmt])) ∧
    (metacommand ⟨ms, pystr "encrypt", true, false⟩
      (pystr " mode.signature")).2.mode = pystr "signature" := by
  obtain ⟨hk1, hk2, hk3⟩ := hent ctr
  have hne : ¬(pystr "signature" = pystr "encrypt") := by decide
  have hsig : protectWire m (pystr "signature") ent ctr
      (strBytes (pystr "#: mode.encrypt")) =
      .ok (m.sign (strBytes (pystr "#: mode.encrypt")) ++
        strBytes (pystr "#: mode.encrypt"), ctr) := by
    rw [protectWire, if_neg hne, if_pos rfl]
  have hpackok : bytesOK (ExecutionResult.pack ⟨true, .noneD, none, []⟩) := by
    decide
  obtain ⟨w, hw1, hw2⟩ := decrypt_encrypt ms m (ent ctr).1 (ent ctr).2
    (ExecutionResult.pack ⟨true, .noneD, none, []⟩) hq hk1 hk2 hk3 hpackok
  have hexec : executorExecute pyEval ⟨ms, pystr "signature", true, false⟩
      (strBytes (pystr "#: mode.encrypt")) =
      (some ⟨true, .noneD, none, []⟩,
        ⟨ms, pystr "encrypt", true, false⟩, []) := rfl
  have hstep : srvMainStep pyEval ⟨ms, pystr "signature", true, false⟩ ent ctr
      (m.sign (strBytes (pystr "#: mode.encrypt")) ++
        strBytes (pystr "#: mode.encrypt")) =
      .cont ⟨ms, pystr "encrypt", true, false⟩ [w] [] (ctr + 1) := by
    rw [srvMainStep,
      srvRecv_goodsig ⟨ms, pystr "signature", true, false⟩ m ent ctr
        (strBytes (pystr "#: mode.encrypt")) rfl hq]
    simp only [hexec]
    rw [protectWire]
    simp only [if_pos rfl]
    rw [hw1]
    rfl
  have hcli : cliExecute ⟨m, pystr "signature"⟩ ent ctr
      (pystr "#: mode.encrypt") w =
      .ok (⟨true, .noneD, none, []⟩, ⟨m, pystr "encrypt"⟩,
        m.sign (strBytes (pystr "#: mode.encrypt")) ++
          strBytes (pystr "#: mode.encrypt"), ctr) := by
    rw [cliExecute, hsig]
    have hc1 : (if pyStartsWith (pystr "#:") (pystr "#: mode.encrypt")
        then cliMetacommand ⟨m, pystr "signature"⟩
          ((pystr "#: mode.encrypt").drop 2)
        else ⟨m, pystr "signature"⟩) = ⟨m, pystr "encrypt"⟩ := rfl
    simp only [hc1]
    rw [cliRecv]
    simp only [if_pos rfl]
    rw [hw2]
    rfl
  refine ⟨⟨w, hsig, hstep, hw1, hcli⟩, ?_, ?_, rfl⟩
  · intro d ctr'
    obtain ⟨hk1', hk2', hk3'⟩ := hent ctr'
    refine ⟨rsaEncrypt m.privateKey (ent ctr').1 ++
      ((ent ctr').2 ++ aesEncrypt (ent ctr').1 (ent ctr').2 (pad d)), ?_, ?_⟩
    · exact encrypt_ok ms m.privateKey _ _ d hq
    · rw [protectWire]
      simp only [if_pos rfl]
      rw [encrypt_ok ms m.privateKey _ _ d hq]
      rfl
  · intro stmt hns
    rw [executorExecute, if_neg]
    rw [hns]
    exact Bool.false_ne_true

theorem C6_witness :
    (∃ w,
      protectWire ⟨3, some 5⟩ (pystr "signature")
          (fun _ => (List.replicate 16 7, List.replicate 16 9)) 0
          (strBytes (pystr "#: mode.encrypt")) =
        .ok (SecurityManager.sign ⟨3, some 5⟩
          (strBytes (pystr "#: mode.encrypt")) ++
          strBytes (pystr "#: mode.encrypt"), 0) ∧
      srvMainStep (fun _ => ⟨true, .noneD, none, []⟩)
          ⟨⟨5, some 3⟩, pystr "signature", true, false⟩
          (fun _ => (List.replicate 16 7, List.replicate 16 9)) 0
          (SecurityManager.sign ⟨3, some 5⟩
            (strBytes (pystr "#: mode.encrypt")) ++
            strBytes (pystr "#: mode.encrypt")) =
        .cont ⟨⟨5, some 3⟩, pystr "encrypt", true, false⟩ [w] [] (0 + 1) ∧
      SecurityManager.encrypt ⟨5, some 3⟩
          ((fun _ => (List.replicate 16 7, List.replicate 16 9)) 0).1
          ((fun _ => (List.replicate 16 7, List.replicate 16 9)) 0).2
          (ExecutionResult.pack ⟨true, .noneD, none, []⟩) = .ok w ∧
      cliExecute ⟨⟨3, some 5⟩, pystr "signature"⟩
          (fun _ => (List.replicate 16 7, List.replicate 16 9)) 0
          (pystr "#: mode.encrypt") w =
        .ok (⟨true, .noneD, none, []⟩, ⟨⟨3, some 5⟩, pystr "encrypt"⟩,
          SecurityManager.sign ⟨3, some 5⟩
            (strBytes (pystr "#: mode.encrypt")) ++
            strBytes (pystr "#: mode.encrypt"), 0)) ∧
    (∀ (d : List Nat) (ctr' : Nat), ∃ c,
      SecurityManager.encrypt ⟨5, some 3⟩
        ((fun _ => (List.replicate 16 7, List.replicate 16 9)) ctr').1
        ((fun _ => (List.replicate 16 7, List.replicate 16 9)) ctr').2 d =
          .ok c ∧
      protectWire ⟨5, some 3⟩ (pystr "encrypt")
        (fun _ => (List.replicate 16 7, List.replicate 16 9)) ctr' d =
          .ok (c, ctr' + 1)) ∧
    (∀ stmt : List Nat, pyStartsWith (pystr "#:") (bytesStr stmt) = false →
      executorExecute (fun _ => ⟨true, .noneD, none, []⟩)
          ⟨⟨5, some 3⟩, pystr "encrypt", true, false⟩ stmt =
        (some ((fun _ => (⟨true, .noneD, none, []⟩ : ExecutionResult))
            (bytesStr stmt)),
          ⟨⟨5, some 3⟩, pystr "encrypt", true, false⟩, [bytesStr stmt])) ∧
    (metacommand ⟨⟨5, some 3⟩, pystr "encrypt", true, false⟩
      (pystr " mode.signature")).2.mode = pystr "signature" :=
  C6_mode_switch_not_retroactive (fun _ => ⟨true, .noneD, none, []⟩)
    ⟨3, some 5⟩ ⟨5, some 3⟩ rfl
    (fun _ => (List.replicate 16 7, List.replicate 16 9))
    (fun _ => ⟨rfl, fun b hb => by rw [List.eq_of_mem_replicate hb]; norm_num,
      rfl⟩) 0

/-- C7: during the interactive input sub-protocol, if the nested receive
after sending the InputRequested Outcome yields a signature-validation
failure, requireInput returns the empty string (having sent the
InputRequested envelope and the synthesized invalid-signature Outcome),
the executor's stdin gains no characters from the aborted request
(readline yields the empty EOF line), and the in-progress command —
blocked on the input() builtin under Executor.execute's exception
wrapper — completes as a failure result rather than being resumed with
substitute input. -/
theorem C7_nested_input_aborts_command (s : SrvState) (rk : Nat)
    (ent : Nat → List Nat × List Nat) (ctr : Nat) (prompt : PyStr)
    (incoming : List Nat)
    (hm : s.mode = pystr "signature")
    (hr : s.manager.remoteKey = some rk)
    (hbad : incoming.take RSA_SIGNATURE_SIZE ≠
      rsaSign rk (incoming.drop RSA_SIGNATURE_SIZE)) :
    srvRequireInput s ent ctr prompt incoming =
      .ok (pystr "",
        [s.manager.sign (ExecutionResult.pack
            ⟨true, .requireInput, none, prompt⟩) ++
          ExecutionResult.pack ⟨true, .requireInput, none, prompt⟩,
         s.manager.sign invalidSignatureResult.pack ++
          invalidSignatureResult.pack], ctr) ∧
    stdinReadline ⟨[]⟩ (pystr "") = (pystr "", ⟨[]⟩) ∧
    execInputCommand (pystr "") = ⟨false, .noneD, some .eofError, []⟩ ∧
    (execInputCommand (pystr "")).success = false := by
  have hne : ¬(pystr "signature" = pystr "encrypt") := by decide
  refine ⟨?_, rfl, rfl, rfl⟩
  rw [srvRequireInput, hm]
  rw [protectWire, if_neg hne, if_pos rfl]
  simp only [srvRecv_badsig s rk ent ctr incoming hm hr hbad]
  rfl

theorem C7_witness :
    srvRequireInput ⟨⟨5, some 3⟩, pystr "signature", true, false⟩
      (fun _ => ([], [])) 0 (pystr "out") [1, 2, 3] =
      .ok (pystr "",
        [SecurityManager.sign ⟨5, some 3⟩ (ExecutionResult.pack
            ⟨true, .requireInput, none, pystr "out"⟩) ++
          ExecutionResult.pack ⟨true, .requireInput, none, pystr "out"⟩,
         SecurityManager.sign ⟨5, some 3⟩ invalidSignatureResult.pack ++
          invalidSignatureResult.pack], 0) ∧
    stdinReadline ⟨[]⟩ (pystr "") = (pystr "", ⟨[]⟩) ∧
    execInputCommand (pystr "") = ⟨false, .noneD, some .eofError, []⟩ ∧
    (execInputCommand (pystr "")).success = false :=
  C7_nested_input_aborts_command
    ⟨⟨5, some 3⟩, pystr "signature", true, false⟩ 3
    (fun _ => ([], [])) 0 (pystr "out") [1, 2, 3] rfl rfl (by decide)

/-- C8: the keypair is NOT generated with the configurable key size.
The configured rsaKeySize is read (default 1024) and RSA_SIGNATURE_SIZE
is derived from it, but SecurityManager.__init__ hardcodes
RSA.generate(1024), so signatures always have 1024/8 = 128 bytes; under
a configuration of 2048 the derived split offset is 256 while produced
signatures still have 128 bytes, and taking the first 256 bytes of a
signed envelope no longer yields the signature — the SIGNED receive path
splits at the wrong offset. -/
theorem C8_keysize_not_configurable :
    rsaKeySizeCfg none = 1024 ∧
    rsaKeySizeCfg (some 2048) = 2048 ∧
    rsaSignatureSizeCfg (some 2048) = 256 ∧
    GENERATED_KEY_BITS = 1024 ∧
    (∀ (m : SecurityManager) (d : List Nat),
      (m.sign d).length = GENERATED_SIGNATURE_SIZE) ∧
    GENERATED_SIGNATURE_SIZE ≠ rsaSignatureSizeCfg (some 2048) ∧
    (SecurityManager.sign ⟨5, none⟩ (List.replicate 130 7) ++
        List.replicate 130 7).take (rsaSignatureSizeCfg (some 2048)) ≠
      SecurityManager.sign ⟨5, none⟩ (List.replicate 130 7) :=
  ⟨rfl, rfl, rfl, rfl, fun _ d => rsaSign_length _ d, by decide, by decide⟩

/-- C9: the server is iterative — each accepted connection is processed
to completion and then the next is accepted; a ConnectionClosed
condition (empty length header → ServerExit) ends only the
per-connection loop, never the whole server: a closed connection yields
a normal per-connection result and serving continues with the next
connection, and a whole list of immediately-closing connections is
processed in full.  Only the terminate metacommand sets the abort flag
(raising ServerExit with no result), after which no further connection
is accepted. -/
theorem C9_iterative_serve (pyEval : PyStr → ExecutionResult)
    (ent : Nat → List Nat × List Nat) :
    (∀ (s : SrvState) (ctr : Nat) (rest : List ConnEvent)
        (sent : List (List Nat)) (calls : List PyStr),
      runConn pyEval s ent ctr (.closed :: rest) sent calls =
        .closedConn s sent calls) ∧
    (∀ (k : Nat) (rest : List (Nat × List ConnEvent)),
      serveRun pyEval ent ((k, [ConnEvent.closed]) :: rest) =
        .closedConn ⟨⟨k, none⟩, pystr "", false, false⟩ [] [] ::
          serveRun pyEval ent rest) ∧
    (∀ ks : List Nat,
      serveRun pyEval ent (ks.map (fun k => (k, [ConnEvent.closed]))) =
        ks.map (fun k =>
          .closedConn ⟨⟨k, none⟩, pystr "", false, false⟩ [] [])) ∧
    (∀ s : SrvState, (metacommand s (pystr "exit")).2.aborted = true ∧
      (metacommand s (pystr "exit")).1 = none) ∧
    (∀ rest : List (Nat × List ConnEvent),
      serveRun pyEval ent ((5,
        [.msg (SecurityManager.export ⟨3, none⟩),
         .msg (SecurityManager.sign ⟨3, none⟩ (strBytes (pystr "#:exit")) ++
           strBytes (pystr "#:exit"))]) :: rest) =
        [.closedConn ⟨⟨5, some 3⟩, pystr "signature", true, true⟩
          [SecurityManager.export ⟨5, some 3⟩] []]) := by
  refine ⟨fun s ctr rest sent calls => rfl, fun k rest => rfl, ?_,
    fun s => ⟨rfl, rfl⟩, fun rest => rfl⟩
  intro ks
  induction ks with
  | nil => rfl
  | cons k t ih =>
    rw [List.map_cons, List.map_cons]
    show serveRun pyEval ent ((k, [ConnEvent.closed]) ::
      t.map (fun k => (k, [ConnEvent.closed]))) = _
    rw [serveRun]
    show (if false = true then _ else _) = _
    rw [if_neg (by decide)]
    rw [ih]
